import Mathlib

/-!
Shallow embedding of `src/vulkano/src/image/sys.rs`: the `UnsafeImage`
resource wrapper, its constructor `UnsafeImage::new`, the stubbed adoption
constructor `from_raw_unowned`, the `Drop` implementation, and the `Usage`
flag set with its bitmask encode/decode.

Device interaction is modelled by an explicit behaviour record (what each
device call returns) plus a trace of the calls issued.  Machine integers
(`u32`, `u64`) are modelled as `Nat`; where overflow matters (`leading_zeros`)
the 32-bit width is explicit.
-/

/-- Modelled from the spec: the eight fixed, non-overlapping usage bits of the
native API (`vk::IMAGE_USAGE_*`); their numeric values live in the generated
bindings, which are not part of this fragment. -/
def IMAGE_USAGE_TRANSFER_SRC_BIT : Nat := 1

def IMAGE_USAGE_TRANSFER_DST_BIT : Nat := 2

def IMAGE_USAGE_SAMPLED_BIT : Nat := 4

def IMAGE_USAGE_STORAGE_BIT : Nat := 8

def IMAGE_USAGE_COLOR_ATTACHMENT_BIT : Nat := 16

def IMAGE_USAGE_DEPTH_STENCIL_ATTACHMENT_BIT : Nat := 32

def IMAGE_USAGE_TRANSIENT_ATTACHMENT_BIT : Nat := 64

def IMAGE_USAGE_INPUT_ATTACHMENT_BIT : Nat := 128

/-- Modelled from the spec: native image-type enum values (`vk::IMAGE_TYPE_*`). -/
def IMAGE_TYPE_1D : Nat := 0

def IMAGE_TYPE_2D : Nat := 1

def IMAGE_TYPE_3D : Nat := 2

/-- Modelled from the spec: sharing-mode enum values (`vk::SHARING_MODE_*`). -/
def SHARING_MODE_EXCLUSIVE : Nat := 0

def SHARING_MODE_CONCURRENT : Nat := 1

/-- Modelled from the spec: tiling enum values (`vk::IMAGE_TILING_*`). -/
def IMAGE_TILING_OPTIMAL : Nat := 0

def IMAGE_TILING_LINEAR : Nat := 1

/-- Modelled from the spec: initial-layout enum values (`vk::IMAGE_LAYOUT_*`). -/
def IMAGE_LAYOUT_UNDEFINED : Nat := 0

def IMAGE_LAYOUT_PREINITIALIZED : Nat := 8

/-- Source `pub struct Usage`: eight independent boolean flags. -/
structure Usage where
  transfer_source : Bool
  transfer_dest : Bool
  sampled : Bool
  storage : Bool
  color_attachment : Bool
  depth_stencil_attachment : Bool
  transient_attachment : Bool
  input_attachment : Bool
deriving DecidableEq, Repr

/-- Source `Usage::all()`: builds a `Usage` with all values set to true. -/
def Usage.all : Usage :=
  { transfer_source := true
    transfer_dest := true
    sampled := true
    storage := true
    color_attachment := true
    depth_stencil_attachment := true
    transient_attachment := true
    input_attachment := true }

/-- Source `Usage::none()`: builds a `Usage` with all values set to false. -/
def Usage.none : Usage :=
  { transfer_source := false
    transfer_dest := false
    sampled := false
    storage := false
    color_attachment := false
    depth_stencil_attachment := false
    transient_attachment := false
    input_attachment := false }

/-- Source `Usage::to_usage_bits`: OR together the bit of each true flag. -/
def Usage.to_usage_bits (self : Usage) : Nat :=
  let result := 0
  let result := if self.transfer_source then result ||| IMAGE_USAGE_TRANSFER_SRC_BIT else result
  let result := if self.transfer_dest then result ||| IMAGE_USAGE_TRANSFER_DST_BIT else result
  let result := if self.sampled then result ||| IMAGE_USAGE_SAMPLED_BIT else result
  let result := if self.storage then result ||| IMAGE_USAGE_STORAGE_BIT else result
  let result := if self.color_attachment then result ||| IMAGE_USAGE_COLOR_ATTACHMENT_BIT else result
  let result := if self.depth_stencil_attachment then result ||| IMAGE_USAGE_DEPTH_STENCIL_ATTACHMENT_BIT else result
  let result := if self.transient_attachment then result ||| IMAGE_USAGE_TRANSIENT_ATTACHMENT_BIT else result
  let result := if self.input_attachment then result ||| IMAGE_USAGE_INPUT_ATTACHMENT_BIT else result
  result

/-- Source `Usage::from_bits`: each flag is the test of its bit. -/
def Usage.from_bits (val : Nat) : Usage :=
  { transfer_source := (val &&& IMAGE_USAGE_TRANSFER_SRC_BIT) != 0
    transfer_dest := (val &&& IMAGE_USAGE_TRANSFER_DST_BIT) != 0
    sampled := (val &&& IMAGE_USAGE_SAMPLED_BIT) != 0
    storage := (val &&& IMAGE_USAGE_STORAGE_BIT) != 0
    color_attachment := (val &&& IMAGE_USAGE_COLOR_ATTACHMENT_BIT) != 0
    depth_stencil_attachment := (val &&& IMAGE_USAGE_DEPTH_STENCIL_ATTACHMENT_BIT) != 0
    transient_attachment := (val &&& IMAGE_USAGE_TRANSIENT_ATTACHMENT_BIT) != 0
    input_attachment := (val &&& IMAGE_USAGE_INPUT_ATTACHMENT_BIT) != 0 }

/-- Source `pub enum Dimensions` (extents are `u32`, modelled as `Nat`). -/
inductive Dimensions where
  | Dim1d (width : Nat)
  | Dim1dArray (width : Nat) (array_layers : Nat)
  | Dim2d (width : Nat) (height : Nat)
  | Dim2dArray (width : Nat) (height : Nat) (array_layers : Nat)
  | Dim3d (width : Nat) (height : Nat) (depth : Nat)
deriving DecidableEq, Repr

/-- Source `pub enum MipmapsCount` (from `image::MipmapsCount`). -/
inductive MipmapsCount where
  | Specific (num : Nat)
  | Max
  | One
deriving DecidableEq, Repr

/-- Source `SharingMode` (from `sync::SharingMode`): exclusive to one queue family, or
concurrent across an explicit list of queue family indices. -/
inductive SharingMode where
  | Exclusive (id : Nat)
  | Concurrent (ids : List Nat)
deriving DecidableEq, Repr

/-- Modelled from the spec: `memory::ChunkProperties`, the tagged memory-chunk
description returned by the allocation callback; the `Regular` variant carries
a memory-object handle and a byte offset, and the source matches every other
variant with `_ => unimplemented!()`. -/
inductive ChunkProperties where
  | Regular (memory : Nat) (offset : Nat)
  | NotRegular
deriving DecidableEq, Repr

/-- Source `OomError`: the recoverable out-of-memory-class error. -/
inductive OomError where
  | OutOfHostMemory
  | OutOfDeviceMemory
deriving DecidableEq, Repr

/-- Outcome of running a fallible, possibly-panicking Rust function:
`ok` (normal return), `err` (early return of a recoverable error via `try!`),
or `panic` (an `assert!` / `unimplemented!` abort). -/
inductive RunResult (α : Type) where
  | ok (a : α)
  | err (e : OomError)
  | panic
deriving DecidableEq, Repr

/-- Native `vk::Extent3D`. -/
structure Extent3D where
  width : Nat
  height : Nat
  depth : Nat
deriving DecidableEq, Repr

/-- Native `vk::ImageCreateInfo` as filled in by `UnsafeImage::new` (pointer-only
fields dropped; the queue-family index list stands in for its pointer). -/
structure ImageCreateInfo where
  flags : Nat
  imageType : Nat
  format : Nat
  extent : Extent3D
  mipLevels : Nat
  arrayLayers : Nat
  samples : Nat
  tiling : Nat
  usage : Nat
  sharingMode : Nat
  queueFamilyIndexCount : Nat
  queueFamilyIndices : List Nat
  initialLayout : Nat
deriving DecidableEq, Repr

/-- The device calls `UnsafeImage` issues, recorded as a trace. -/
inductive DeviceCall where
  | CreateImage (infos : ImageCreateInfo)
  | GetImageMemoryRequirements (image : Nat)
  | BindImageMemory (image : Nat) (memory : Nat) (offset : Nat)
  | DestroyImage (image : Nat)
deriving DecidableEq, Repr

/-- Native `vk::MemoryRequirements`. -/
structure MemoryRequirements where
  size : Nat
  alignment : Nat
  memoryTypeBits : Nat
deriving DecidableEq, Repr

/-- Modelled from the spec: the `Device` collaborator, as the behaviour of its
fallible calls (a mock device): what `CreateImage` returns for a given create
info, the memory requirements it reports, and what `BindImageMemory` returns. -/
structure DeviceBehavior where
  createImage : ImageCreateInfo → Except OomError Nat
  memReqs : MemoryRequirements
  bindImageMemory : Nat → Nat → Nat → Except OomError Unit

/-- Source `pub struct UnsafeImage` (`dimensions: [f32; 3]` modelled as a `Nat`
triple: the stored values are the integral extents cast to float; the
device `Arc` is modelled as an opaque id). -/
structure UnsafeImage where
  image : Nat
  device : Nat
  usage : Nat
  format : Nat
  dimensions : Nat × Nat × Nat
  samples : Nat
  mipmaps : Nat
  needs_destruction : Bool
deriving DecidableEq, Repr

/-- The `smallest_dim` computation inside `UnsafeImage::new` (lines 56-68),
with the source's exact `if`-chains. -/
def smallestDim : Dimensions → Nat
  | Dimensions.Dim1d width => width
  | Dimensions.Dim1dArray width _ => width
  | Dimensions.Dim2d width height => if width < height then width else height
  | Dimensions.Dim2dArray width height _ => if width < height then width else height
  | Dimensions.Dim3d width height depth =>
      if width < height then
        (if depth < width then depth else width)
      else
        (if depth < height then depth else height)

/-- Bit length of `n` computed with explicit fuel (structural recursion), so
that it evaluates by kernel reduction; 32 units of fuel cover every `u32`. -/
def bitWidthAux : Nat → Nat → Nat
  | 0, _ => 0
  | fuel + 1, n => if n = 0 then 0 else bitWidthAux fuel (n / 2) + 1

/-- Native `u32::leading_zeros`: 32 minus the bit length (faithful for `n < 2^32`). -/
def leadingZeros32 (n : Nat) : Nat := 32 - bitWidthAux 32 n

/-- The `max_mipmaps` value as computed in `UnsafeImage::new` (line 71):
`32 - smallest_dim.leading_zeros()`. -/
def max_mipmaps (dimensions : Dimensions) : Nat :=
  32 - leadingZeros32 (smallestDim dimensions)

/-- Spec formula for the "smallest relevant extent": width for 1D variants,
`min(width, height)` for 2D variants, `min(width, height, depth)` for 3D. -/
def smallestRelevantExtent : Dimensions → Nat
  | Dimensions.Dim1d width => width
  | Dimensions.Dim1dArray width _ => width
  | Dimensions.Dim2d width height => Nat.min width height
  | Dimensions.Dim2dArray width height _ => Nat.min width height
  | Dimensions.Dim3d width height depth => Nat.min width (Nat.min height depth)

/-- Spec-side predicate: some extent component (width, height or depth, not
the layer count) of the dimensionality description is 0. -/
def hasZeroExtent : Dimensions → Bool
  | Dimensions.Dim1d width => width == 0
  | Dimensions.Dim1dArray width _ => width == 0
  | Dimensions.Dim2d width height => width == 0 || height == 0
  | Dimensions.Dim2dArray width height _ => width == 0 || height == 0
  | Dimensions.Dim3d width height depth => width == 0 || height == 0 || depth == 0

/-- Mip-count resolution in `UnsafeImage::new` (lines 75-83); `none` models a
failed `assert!` (panic). -/
def resolve_mipmaps (mipmaps : MipmapsCount) (max_mipmaps : Nat) : Option Nat :=
  match mipmaps with
  | MipmapsCount.Specific num =>
      if num < 1 then none
      else if max_mipmaps < num then none
      else some num
  | MipmapsCount.Max => some max_mipmaps
  | MipmapsCount.One => some 1

/-- The `(ty, extent, array_layers, dims)` derivation in `UnsafeImage::new`
(lines 88-114). -/
def derive_image_params (dimensions : Dimensions) :
    Nat × Extent3D × Nat × (Nat × Nat × Nat) :=
  match dimensions with
  | Dimensions.Dim1d width =>
      (IMAGE_TYPE_1D, { width := width, height := 1, depth := 1 }, 1, (width, 1, 1))
  | Dimensions.Dim1dArray width array_layers =>
      (IMAGE_TYPE_1D, { width := width, height := 1, depth := 1 }, array_layers, (width, 1, 1))
  | Dimensions.Dim2d width height =>
      (IMAGE_TYPE_2D, { width := width, height := height, depth := 1 }, 1, (width, height, 1))
  | Dimensions.Dim2dArray width height array_layers =>
      (IMAGE_TYPE_2D, { width := width, height := height, depth := 1 }, array_layers,
       (width, height, 1))
  | Dimensions.Dim3d width height depth =>
      (IMAGE_TYPE_3D, { width := width, height := height, depth := depth }, 1,
       (width, height, depth))

/-- The `(sh_mode, sh_count, sh_indices)` serialization of the sharing mode
(lines 117-121). -/
def sharing_params : SharingMode → Nat × Nat × List Nat
  | SharingMode.Exclusive _ => (SHARING_MODE_EXCLUSIVE, 0, [])
  | SharingMode.Concurrent ids => (SHARING_MODE_CONCURRENT, ids.length, ids)

/-- The `vk::ImageCreateInfo` literal built in `UnsafeImage::new`
(lines 123-147). -/
def image_create_info (usage : Nat) (format : Nat) (ty : Nat) (extent : Extent3D)
    (mipmaps : Nat) (array_layers : Nat) (num_samples : Nat) (sharing : SharingMode)
    (linear_tiling : Bool) (preinitialized_layout : Bool) : ImageCreateInfo :=
  { flags := 0
    imageType := ty
    format := format
    extent := extent
    mipLevels := mipmaps
    arrayLayers := array_layers
    samples := num_samples
    tiling := if linear_tiling then IMAGE_TILING_LINEAR else IMAGE_TILING_OPTIMAL
    usage := usage
    sharingMode := (sharing_params sharing).1
    queueFamilyIndexCount := (sharing_params sharing).2.1
    queueFamilyIndices := (sharing_params sharing).2.2
    initialLayout := if preinitialized_layout then IMAGE_LAYOUT_PREINITIALIZED
                     else IMAGE_LAYOUT_UNDEFINED }

/-- Source `UnsafeImage::new` (lines 41-182), with the call trace made explicit.
The two `assert!`s (samples, smallest extent), the mip-resolution asserts,
the `try!` early returns after `CreateImage` and `BindImageMemory`, and the
`unimplemented!()` arm for non-`Regular` chunks follow the source order. -/
def UnsafeImage.new (dev : DeviceBehavior) (usage : Usage)
    (memory : Nat → Nat → Nat → ChunkProperties) (format : Nat)
    (dimensions : Dimensions) (num_samples : Nat) (mipmaps : MipmapsCount)
    (sharing : SharingMode) (linear_tiling : Bool) (preinitialized_layout : Bool) :
    RunResult UnsafeImage × List DeviceCall :=
  let usageBits := usage.to_usage_bits
  if num_samples < 1 then (RunResult.panic, []) else
  if smallestDim dimensions < 1 then (RunResult.panic, []) else
  match resolve_mipmaps mipmaps (max_mipmaps dimensions) with
  | Option.none => (RunResult.panic, [])
  | Option.some mips =>
    let params := derive_image_params dimensions
    let infos := image_create_info usageBits format params.1 params.2.1 mips
        params.2.2.1 num_samples sharing linear_tiling preinitialized_layout
    match dev.createImage infos with
    | Except.error e => (RunResult.err e, [DeviceCall.CreateImage infos])
    | Except.ok image =>
      let mem_reqs := dev.memReqs
      match memory mem_reqs.size mem_reqs.alignment mem_reqs.memoryTypeBits with
      | ChunkProperties.Regular mem offset =>
        match dev.bindImageMemory image mem offset with
        | Except.error e =>
            (RunResult.err e,
             [DeviceCall.CreateImage infos, DeviceCall.GetImageMemoryRequirements image,
              DeviceCall.BindImageMemory image mem offset])
        | Except.ok _ =>
            (RunResult.ok
              { image := image
                device := 0
                usage := usageBits
                format := format
                dimensions := params.2.2.2
                samples := num_samples
                mipmaps := mips
                needs_destruction := true },
             [DeviceCall.CreateImage infos, DeviceCall.GetImageMemoryRequirements image,
              DeviceCall.BindImageMemory image mem offset])
      | ChunkProperties.NotRegular =>
          (RunResult.panic,
           [DeviceCall.CreateImage infos, DeviceCall.GetImageMemoryRequirements image])

/-- Source `UnsafeImage::from_raw_unowned` (lines 187-208): the body is
`unimplemented!()` (the intended construction is commented out), so every
call panics. -/
def UnsafeImage.from_raw_unowned (device : Nat) (handle : Nat) (memory : Nat)
    (sharing : SharingMode) (usage : Nat) (format : Nat) (dimensions : Dimensions)
    (samples : Nat) (mipmaps : Nat) : RunResult UnsafeImage :=
  RunResult.panic

/-- Source `impl Drop for UnsafeImage` (lines 220-232): the device calls issued when
the image is dropped. -/
def UnsafeImage.drop (self : UnsafeImage) : List DeviceCall :=
  if !self.needs_destruction then []
  else [DeviceCall.DestroyImage self.image]

/-- Mock device for concrete runs: creation succeeds with handle 7, binding
succeeds. -/
def devOk : DeviceBehavior :=
  { createImage := fun _ => Except.ok 7
    memReqs := { size := 128, alignment := 16, memoryTypeBits := 1 }
    bindImageMemory := fun _ _ _ => Except.ok () }

/-- Mock device for concrete runs: creation succeeds with handle 7, binding
fails with a recoverable out-of-device-memory error. -/
def devBindFail : DeviceBehavior :=
  { createImage := fun _ => Except.ok 7
    memReqs := { size := 128, alignment := 16, memoryTypeBits := 1 }
    bindImageMemory := fun _ _ _ => Except.error OomError.OutOfDeviceMemory }

/-- Mock allocation callback returning a regular chunk (memory object 3,
offset 0). -/
def memRegular : Nat → Nat → Nat → ChunkProperties :=
  fun _ _ _ => ChunkProperties.Regular 3 0

/-- Mock allocation callback returning a non-regular chunk. -/
def memNonRegular : Nat → Nat → Nat → ChunkProperties :=
  fun _ _ _ => ChunkProperties.NotRegular

/-- The source's `if`-chain for the smallest dimension agrees with the spec's
min formula. -/
theorem smallestDim_eq_smallestRelevantExtent (d : Dimensions) :
    smallestDim d = smallestRelevantExtent d := by
  cases d <;> simp only [smallestDim, smallestRelevantExtent, Nat.min_def] <;>
    first
    | rfl
    | (split_ifs <;> omega)

/-- A zero extent component forces the smallest dimension to 0. -/
theorem smallestDim_eq_zero_of_hasZeroExtent (d : Dimensions)
    (h : hasZeroExtent d = true) : smallestDim d = 0 := by
  cases d <;> simp only [hasZeroExtent, Nat.beq_eq_true_eq, Bool.or_eq_true,
    beq_iff_eq] at h <;> simp only [smallestDim] <;>
    first
    | omega
    | (split_ifs <;> omega)

/-- The fuel-indexed bit width is bounded by the fuel. -/
theorem bitWidthAux_le (fuel : Nat) : ∀ n, n < 2 ^ fuel → bitWidthAux fuel n ≤ fuel := by
  induction fuel with
  | zero => intro n h; simp [bitWidthAux]
  | succ f ih =>
    intro n h
    by_cases hn : n = 0
    · simp [bitWidthAux, hn]
    · have hpow : 2 ^ (f + 1) = 2 * 2 ^ f := by ring
      have h2 : n / 2 < 2 ^ f := by omega
      have := ih (n / 2) h2
      simp only [bitWidthAux, hn, if_false]
      omega

/-- For `1 ≤ n < 2 ^ fuel` the fuel-indexed bit width `b` is positive and
satisfies `2 ^ (b - 1) ≤ n < 2 ^ b`. -/
theorem bitWidthAux_bounds (fuel : Nat) : ∀ n, 1 ≤ n → n < 2 ^ fuel →
    1 ≤ bitWidthAux fuel n ∧ 2 ^ (bitWidthAux fuel n - 1) ≤ n ∧
      n < 2 ^ bitWidthAux fuel n := by
  induction fuel with
  | zero => intro n h1 h2; simp at h2; omega
  | succ f ih =>
    intro n h1 h2
    have hn : ¬ n = 0 := by omega
    by_cases hone : n < 2
    · have hn1 : n = 1 := by omega
      subst hn1
      have hz : bitWidthAux f 0 = 0 := by cases f <;> simp [bitWidthAux]
      simp [bitWidthAux, hz]
    · have hpow : 2 ^ (f + 1) = 2 * 2 ^ f := by ring
      have h2' : n / 2 < 2 ^ f := by omega
      have h1' : 1 ≤ n / 2 := by omega
      obtain ⟨hb1, hb2, hb3⟩ := ih (n / 2) h1' h2'
      simp only [bitWidthAux, hn, if_false]
      refine ⟨by omega, ?_, ?_⟩
      · obtain ⟨k, hk⟩ : ∃ k, bitWidthAux f (n / 2) = k + 1 :=
          ⟨bitWidthAux f (n / 2) - 1, by omega⟩
        rw [hk] at hb2
        rw [hk]
        simp only [Nat.add_sub_cancel] at hb2 ⊢
        have hpk : 2 ^ (k + 1) = 2 * 2 ^ k := by ring
        omega
      · have hpb : 2 ^ (bitWidthAux f (n / 2) + 1) = 2 * 2 ^ bitWidthAux f (n / 2) := by ring
        omega

/-- Uniqueness of the base-2 logarithm from its bracketing powers. -/
theorem log2_eq_of_bounds (n k : Nat) (h1 : 2 ^ k ≤ n) (h2 : n < 2 ^ (k + 1)) :
    Nat.log2 n = k := by
  have hpos : 1 ≤ 2 ^ k := Nat.one_le_two_pow
  have hn : n ≠ 0 := by omega
  have ha : Nat.log2 n < k + 1 := (Nat.log2_lt hn).mpr h2
  have hb : ¬ Nat.log2 n < k := by
    intro hlt
    have := (Nat.log2_lt hn).mp hlt
    omega
  omega

/-- The fuel-indexed bit width is `log2 + 1` on `1 ≤ n < 2 ^ fuel`. -/
theorem bitWidthAux_eq_log2 (fuel n : Nat) (h1 : 1 ≤ n) (h2 : n < 2 ^ fuel) :
    bitWidthAux fuel n = Nat.log2 n + 1 := by
  obtain ⟨hb1, hb2, hb3⟩ := bitWidthAux_bounds fuel n h1 h2
  obtain ⟨k, hk⟩ : ∃ k, bitWidthAux fuel n = k + 1 :=
    ⟨bitWidthAux fuel n - 1, by omega⟩
  rw [hk] at hb2 hb3
  simp only [Nat.add_sub_cancel] at hb2
  rw [hk, log2_eq_of_bounds n k hb2 hb3]

/-- C5: for every usage descriptor `U` (every assignment of the eight boolean
flags), decoding the encoded bitmask returns the same descriptor:
`from_bits (to_usage_bits U) = U`, with no flag dropped or invented. -/
theorem usage_from_bits_to_usage_bits (u : Usage) :
    Usage.from_bits (Usage.to_usage_bits u) = u := by
  obtain ⟨a, b, c, d, e, f, g, h⟩ := u
  revert a b c d e f g h
  decide

/-- C6: the encoding of `Usage::none()` is exactly 0, and the encoding of
`Usage::all()` is exactly the OR of the eight defined usage bits, which fills
the low eight bit positions (`2 ^ 8 - 1`) and no others. -/
theorem usage_all_none_bits :
    Usage.to_usage_bits Usage.none = 0 ∧
    Usage.to_usage_bits Usage.all =
      (IMAGE_USAGE_TRANSFER_SRC_BIT ||| IMAGE_USAGE_TRANSFER_DST_BIT |||
       IMAGE_USAGE_SAMPLED_BIT ||| IMAGE_USAGE_STORAGE_BIT |||
       IMAGE_USAGE_COLOR_ATTACHMENT_BIT ||| IMAGE_USAGE_DEPTH_STENCIL_ATTACHMENT_BIT |||
       IMAGE_USAGE_TRANSIENT_ATTACHMENT_BIT ||| IMAGE_USAGE_INPUT_ATTACHMENT_BIT) ∧
    Usage.to_usage_bits Usage.all = 2 ^ 8 - 1 := by
  decide

/-- C2 (divergence evidence): `UnsafeImage::from_raw_unowned` is a stub whose
body is `unimplemented!()`, so every call panics and no resource object (with
or without `needs_destruction = false`) is ever returned. -/
theorem from_raw_unowned_always_panics :
    ∀ device handle memory sharing usage format dimensions samples mipmaps,
      UnsafeImage.from_raw_unowned device handle memory sharing usage format
        dimensions samples mipmaps = RunResult.panic :=
  fun _ _ _ _ _ _ _ _ _ => rfl

/-- C8: dropping an `UnsafeImage` issues `DestroyImage` on its handle exactly
when `needs_destruction` is true, and performs no device call at all
otherwise. -/
theorem drop_destroys_iff_needs_destruction (img : UnsafeImage) :
    img.drop = (if img.needs_destruction then [DeviceCall.DestroyImage img.image]
                else []) ∧
    ((DeviceCall.DestroyImage img.image ∈ img.drop) ↔ img.needs_destruction = true) := by
  cases h : img.needs_destruction <;> simp [UnsafeImage.drop, h]

/-- C9: if some extent (width, height or depth) of the dimensionality
description is 0, or the sample count is 0, `UnsafeImage::new` panics at a
construction-time assertion, issuing no device call (in particular no
`CreateImage`) and returning no recoverable error. -/
theorem new_panics_on_zero_extent_or_samples (dev : DeviceBehavior) (usage : Usage)
    (memory : Nat → Nat → Nat → ChunkProperties) (format : Nat) (dims : Dimensions)
    (num_samples : Nat) (mipmaps : MipmapsCount) (sharing : SharingMode)
    (linear_tiling preinitialized_layout : Bool)
    (h : hasZeroExtent dims = true ∨ num_samples = 0) :
    UnsafeImage.new dev usage memory format dims num_samples mipmaps sharing
      linear_tiling preinitialized_layout = (RunResult.panic, []) := by
  rcases h with h | h
  · have hz : smallestDim dims = 0 := smallestDim_eq_zero_of_hasZeroExtent dims h
    by_cases hs : num_samples < 1
    · simp [UnsafeImage.new, hs]
    · simp [UnsafeImage.new, hs, hz]
  · subst h
    simp [UnsafeImage.new]

/-- Witness for C9 at the concrete input `Dim2d 0 5`, sample count 1. -/
theorem new_panics_on_zero_extent_or_samples_witness :
    (hasZeroExtent (Dimensions.Dim2d 0 5) = true ∨ (1 : Nat) = 0) ∧
    UnsafeImage.new devOk Usage.none memRegular 0 (Dimensions.Dim2d 0 5) 1
      MipmapsCount.One (SharingMode.Exclusive 0) false false =
      (RunResult.panic, []) :=
  ⟨Or.inl (by decide),
   new_panics_on_zero_extent_or_samples devOk Usage.none memRegular 0
     (Dimensions.Dim2d 0 5) 1 MipmapsCount.One (SharingMode.Exclusive 0) false false
     (Or.inl (by decide))⟩

/-- C4: `One` resolves to 1 regardless of the maximum, `Max` resolves to the
computed maximum, `Specific n` resolves to `n` exactly when `1 ≤ n ≤ max`, and
an out-of-range `Specific n` makes `UnsafeImage::new` abort by assertion
(panic, empty trace) rather than return a recoverable error. -/
theorem resolve_mipmaps_spec :
    (∀ maxm, resolve_mipmaps MipmapsCount.One maxm = some 1) ∧
    (∀ maxm, resolve_mipmaps MipmapsCount.Max maxm = some maxm) ∧
    (∀ maxm n, resolve_mipmaps (MipmapsCount.Specific n) maxm =
      if 1 ≤ n ∧ n ≤ maxm then some n else none) ∧
    (∀ dev usage memory format dims num_samples sharing linear_tiling
        preinitialized_layout n,
      1 ≤ num_samples → 1 ≤ smallestDim dims → ¬(1 ≤ n ∧ n ≤ max_mipmaps dims) →
      UnsafeImage.new dev usage memory format dims num_samples
        (MipmapsCount.Specific n) sharing linear_tiling preinitialized_layout =
        (RunResult.panic, [])) := by
  refine ⟨fun maxm => rfl, fun maxm => rfl, ?_, ?_⟩
  · intro maxm n
    simp only [resolve_mipmaps]
    split_ifs <;> first | rfl | (exfalso; omega)
  · intro dev usage memory format dims num_samples sharing linear_tiling
      preinitialized_layout n hs hd hn
    have h1 : ¬ (num_samples < 1) := by omega
    have h2 : ¬ (smallestDim dims < 1) := by omega
    have hres : resolve_mipmaps (MipmapsCount.Specific n) (max_mipmaps dims) = none := by
      simp only [resolve_mipmaps]
      split_ifs <;> first | rfl | (exfalso; omega)
    simp [UnsafeImage.new, h1, h2, hres]

/-- Witness for C4: an out-of-range `Specific 100` request on a 4×4 image
(maximum 3) panics with an empty trace. -/
theorem resolve_mipmaps_spec_witness :
    (1 : Nat) ≤ 1 ∧ 1 ≤ smallestDim (Dimensions.Dim2d 4 4) ∧
    ¬((1 : Nat) ≤ 100 ∧ 100 ≤ max_mipmaps (Dimensions.Dim2d 4 4)) ∧
    UnsafeImage.new devOk Usage.none memRegular 0 (Dimensions.Dim2d 4 4) 1
      (MipmapsCount.Specific 100) (SharingMode.Exclusive 0) false false =
      (RunResult.panic, []) :=
  ⟨by decide, by decide, by decide,
   resolve_mipmaps_spec.2.2.2 devOk Usage.none memRegular 0 (Dimensions.Dim2d 4 4) 1
     (SharingMode.Exclusive 0) false false 100 (by decide) (by decide) (by decide)⟩

/-- C3: for every dimensionality description whose smallest relevant extent
`s` (width for 1D, `min(width, height)` for 2D, `min(width, height, depth)`
for 3D) satisfies `1 ≤ s < 2 ^ 32`, the computed maximum mip level count is
`32 - leading_zeros(s) = floor(log2 s) + 1`. -/
theorem max_mipmaps_eq_log2 (d : Dimensions)
    (h1 : 1 ≤ smallestRelevantExtent d) (h2 : smallestRelevantExtent d < 2 ^ 32) :
    max_mipmaps d = 32 - leadingZeros32 (smallestRelevantExtent d) ∧
    max_mipmaps d = Nat.log2 (smallestRelevantExtent d) + 1 := by
  have hs := smallestDim_eq_smallestRelevantExtent d
  have hb := bitWidthAux_eq_log2 32 (smallestRelevantExtent d) h1 h2
  have hle := bitWidthAux_le 32 (smallestRelevantExtent d) h2
  constructor
  · unfold max_mipmaps
    rw [hs]
  · unfold max_mipmaps leadingZeros32
    rw [hs, hb]
    omega

/-- Witness for C3: smallest relevant extent 256 gives 9 levels and extent 1
gives 1 level. -/
theorem max_mipmaps_eq_log2_witness :
    1 ≤ smallestRelevantExtent (Dimensions.Dim2d 256 512) ∧
    smallestRelevantExtent (Dimensions.Dim2d 256 512) < 2 ^ 32 ∧
    max_mipmaps (Dimensions.Dim2d 256 512) =
      Nat.log2 (smallestRelevantExtent (Dimensions.Dim2d 256 512)) + 1 ∧
    max_mipmaps (Dimensions.Dim2d 256 512) = 9 ∧
    max_mipmaps (Dimensions.Dim1d 1) = 1 :=
  ⟨by decide, by decide,
   (max_mipmaps_eq_log2 (Dimensions.Dim2d 256 512) (by decide) (by decide)).2,
   by decide, by decide⟩

/-- Whenever the precondition assertions pass and the mip request resolves,
the first device call `UnsafeImage::new` issues is `CreateImage` with the
create info derived from the inputs, whatever the device then returns. -/
theorem new_trace_head (dev : DeviceBehavior) (usage : Usage)
    (memory : Nat → Nat → Nat → ChunkProperties) (format : Nat) (dims : Dimensions)
    (num_samples : Nat) (mipmaps : MipmapsCount) (sharing : SharingMode)
    (linear_tiling preinitialized_layout : Bool) (mc : Nat)
    (h1 : ¬ num_samples < 1) (h2 : ¬ smallestDim dims < 1)
    (hm : resolve_mipmaps mipmaps (max_mipmaps dims) = some mc) :
    ((UnsafeImage.new dev usage memory format dims num_samples mipmaps sharing
        linear_tiling preinitialized_layout).2).head? =
      some (DeviceCall.CreateImage
        (image_create_info (Usage.to_usage_bits usage) format
          (derive_image_params dims).1 (derive_image_params dims).2.1 mc
          (derive_image_params dims).2.2.1 num_samples sharing linear_tiling
          preinitialized_layout)) := by
  unfold UnsafeImage.new
  rw [if_neg h1, if_neg h2, hm]
  split
  · rename_i heq
    exact Option.noConfusion heq
  · rename_i a heq
    injection heq with h
    subst h
    dsimp only []
    split
    · rfl
    · split
      · split <;> rfl
      · rfl

/-- C10: for array dimensionality descriptions with width and height at
least 1, no assertion constrains the layer count: any `array_layers` value,
0 included, reaches the device and is forwarded unchanged as the
`arrayLayers` field of the `CreateImage` request. -/
theorem new_forwards_array_layers_unchecked (dev : DeviceBehavior) (usage : Usage)
    (memory : Nat → Nat → Nat → ChunkProperties) (format w ht n num_samples : Nat)
    (sharing : SharingMode) (linear_tiling preinitialized_layout : Bool)
    (hw : 1 ≤ w) (hh : 1 ≤ ht) (hs : 1 ≤ num_samples) :
    ((UnsafeImage.new dev usage memory format (Dimensions.Dim1dArray w n) num_samples
        MipmapsCount.One sharing linear_tiling preinitialized_layout).2).head? =
      some (DeviceCall.CreateImage
        (image_create_info (Usage.to_usage_bits usage) format IMAGE_TYPE_1D
          { width := w, height := 1, depth := 1 } 1 n num_samples sharing
          linear_tiling preinitialized_layout)) ∧
    ((UnsafeImage.new dev usage memory format (Dimensions.Dim2dArray w ht n) num_samples
        MipmapsCount.One sharing linear_tiling preinitialized_layout).2).head? =
      some (DeviceCall.CreateImage
        (image_create_info (Usage.to_usage_bits usage) format IMAGE_TYPE_2D
          { width := w, height := ht, depth := 1 } 1 n num_samples sharing
          linear_tiling preinitialized_layout)) := by
  have h1 : ¬ num_samples < 1 := by omega
  have hd1 : ¬ smallestDim (Dimensions.Dim1dArray w n) < 1 := by
    simp only [smallestDim]
    omega
  have hd2 : ¬ smallestDim (Dimensions.Dim2dArray w ht n) < 1 := by
    simp only [smallestDim]
    split <;> omega
  exact ⟨new_trace_head dev usage memory format (Dimensions.Dim1dArray w n) num_samples
      MipmapsCount.One sharing linear_tiling preinitialized_layout 1 h1 hd1 rfl,
    new_trace_head dev usage memory format (Dimensions.Dim2dArray w ht n) num_samples
      MipmapsCount.One sharing linear_tiling preinitialized_layout 1 h1 hd2 rfl⟩

/-- C7: when the allocation callback returns a chunk variant other than
`Regular`, `UnsafeImage::new` panics (the `unimplemented!()` arm) and never
issues `BindImageMemory`. -/
theorem new_nonregular_chunk_panics_without_bind (dev : DeviceBehavior) (usage : Usage)
    (memory : Nat → Nat → Nat → ChunkProperties) (format : Nat) (dims : Dimensions)
    (num_samples : Nat) (mipmaps : MipmapsCount) (sharing : SharingMode)
    (linear_tiling preinitialized_layout : Bool) (img : Nat)
    (hs : 1 ≤ num_samples) (hd : 1 ≤ smallestDim dims)
    (hm : (resolve_mipmaps mipmaps (max_mipmaps dims)).isSome = true)
    (hc : ∀ infos, dev.createImage infos = Except.ok img)
    (hcb : ∀ size alignment typeBits, memory size alignment typeBits =
      ChunkProperties.NotRegular) :
    (UnsafeImage.new dev usage memory format dims num_samples mipmaps sharing
      linear_tiling preinitialized_layout).1 = RunResult.panic ∧
    ∀ i m o, DeviceCall.BindImageMemory i m o ∉
      (UnsafeImage.new dev usage memory format dims num_samples mipmaps sharing
        linear_tiling preinitialized_layout).2 := by
  have h1 : ¬ num_samples < 1 := by omega
  have h2 : ¬ smallestDim dims < 1 := by omega
  obtain ⟨mc, hmc⟩ := Option.isSome_iff_exists.mp hm
  constructor
  · simp [UnsafeImage.new, h1, h2, hmc, hc, hcb]
  · intro i m o
    simp [UnsafeImage.new, h1, h2, hmc, hc, hcb]

/-- C1 (divergence evidence): when `BindImageMemory` fails, `UnsafeImage::new`
propagates the recoverable error and returns no resource object, but it never
issues `DestroyImage` for the created handle: the handle leaks, contrary to
the spec. -/
theorem new_bind_failure_propagates_without_destroy (dev : DeviceBehavior) (usage : Usage)
    (memory : Nat → Nat → Nat → ChunkProperties) (format : Nat) (dims : Dimensions)
    (num_samples : Nat) (mipmaps : MipmapsCount) (sharing : SharingMode)
    (linear_tiling preinitialized_layout : Bool) (img chunkMem chunkOffset : Nat)
    (e : OomError)
    (hs : 1 ≤ num_samples) (hd : 1 ≤ smallestDim dims)
    (hm : (resolve_mipmaps mipmaps (max_mipmaps dims)).isSome = true)
    (hc : ∀ infos, dev.createImage infos = Except.ok img)
    (hcb : ∀ size alignment typeBits, memory size alignment typeBits =
      ChunkProperties.Regular chunkMem chunkOffset)
    (hb : dev.bindImageMemory img chunkMem chunkOffset = Except.error e) :
    (UnsafeImage.new dev usage memory format dims num_samples mipmaps sharing
      linear_tiling preinitialized_layout).1 = RunResult.err e ∧
    ∀ i, DeviceCall.DestroyImage i ∉
      (UnsafeImage.new dev usage memory format dims num_samples mipmaps sharing
        linear_tiling preinitialized_layout).2 := by
  have h1 : ¬ num_samples < 1 := by omega
  have h2 : ¬ smallestDim dims < 1 := by omega
  obtain ⟨mc, hmc⟩ := Option.isSome_iff_exists.mp hm
  constructor
  · simp [UnsafeImage.new, h1, h2, hmc, hc, hcb, hb]
  · intro i
    simp [UnsafeImage.new, h1, h2, hmc, hc, hcb, hb]

/-- Witness for C10: a 2D-array description with `array_layers = 0` passes
every assertion and the `CreateImage` request carries `arrayLayers = 0`. -/
theorem new_forwards_array_layers_unchecked_witness :
    (1 : Nat) ≤ 4 ∧ (1 : Nat) ≤ 1 ∧
    ((UnsafeImage.new devOk Usage.none memRegular 0 (Dimensions.Dim2dArray 4 4 0) 1
        MipmapsCount.One (SharingMode.Exclusive 0) false false).2).head? =
      some (DeviceCall.CreateImage
        (image_create_info (Usage.to_usage_bits Usage.none) 0 IMAGE_TYPE_2D
          { width := 4, height := 4, depth := 1 } 1 0 1 (SharingMode.Exclusive 0)
          false false)) :=
  ⟨by decide, by decide,
   (new_forwards_array_layers_unchecked devOk Usage.none memRegular 0 4 4 0 1
     (SharingMode.Exclusive 0) false false (by decide) (by decide) (by decide)).2⟩

/-- Witness for C7: with a mock device whose creation succeeds (handle 7) and a
callback returning a non-regular chunk, construction panics and no bind call
appears in the trace. -/
theorem new_nonregular_chunk_panics_without_bind_witness :
    (UnsafeImage.new devOk Usage.none memNonRegular 0 (Dimensions.Dim2d 4 4) 1
      MipmapsCount.One (SharingMode.Exclusive 0) false false).1 = RunResult.panic ∧
    DeviceCall.BindImageMemory 7 3 0 ∉
      (UnsafeImage.new devOk Usage.none memNonRegular 0 (Dimensions.Dim2d 4 4) 1
        MipmapsCount.One (SharingMode.Exclusive 0) false false).2 :=
  ⟨(new_nonregular_chunk_panics_without_bind devOk Usage.none memNonRegular 0
      (Dimensions.Dim2d 4 4) 1 MipmapsCount.One (SharingMode.Exclusive 0) false false 7
      (by decide) (by decide) (by decide) (fun _ => rfl) (fun _ _ _ => rfl)).1,
   (new_nonregular_chunk_panics_without_bind devOk Usage.none memNonRegular 0
      (Dimensions.Dim2d 4 4) 1 MipmapsCount.One (SharingMode.Exclusive 0) false false 7
      (by decide) (by decide) (by decide) (fun _ => rfl) (fun _ _ _ => rfl)).2 7 3 0⟩

/-- Witness for C1: with a mock device whose creation succeeds (handle 7) and
whose bind call fails, construction surfaces the recoverable error and the
trace holds no `DestroyImage` for the leaked handle. -/
theorem new_bind_failure_propagates_without_destroy_witness :
    (UnsafeImage.new devBindFail Usage.none memRegular 0 (Dimensions.Dim2d 32 32) 1
      MipmapsCount.One (SharingMode.Exclusive 0) false false).1 =
      RunResult.err OomError.OutOfDeviceMemory ∧
    DeviceCall.DestroyImage 7 ∉
      (UnsafeImage.new devBindFail Usage.none memRegular 0 (Dimensions.Dim2d 32 32) 1
        MipmapsCount.One (SharingMode.Exclusive 0) false false).2 :=
  ⟨(new_bind_failure_propagates_without_destroy devBindFail Usage.none memRegular 0
      (Dimensions.Dim2d 32 32) 1 MipmapsCount.One (SharingMode.Exclusive 0) false false
      7 3 0 OomError.OutOfDeviceMemory (by decide) (by decide) (by decide)
      (fun _ => rfl) (fun _ _ _ => rfl) rfl).1,
   (new_bind_failure_propagates_without_destroy devBindFail Usage.none memRegular 0
      (Dimensions.Dim2d 32 32) 1 MipmapsCount.One (SharingMode.Exclusive 0) false false
      7 3 0 OomError.OutOfDeviceMemory (by decide) (by decide) (by decide)
      (fun _ => rfl) (fun _ _ _ => rfl) rfl).2 7⟩
